import Mathlib

/-!
Shallow embedding of zellij src/common/os_input_output.rs: the OS
abstraction layer of the terminal multiplexer.  Pure control flow of the
Rust functions is transcribed into executable Lean definitions; OS effects
(fork, fcntl, signals, waitpid, shared ring buffers, termios) are made
explicit as event traces and state transitions.
-/

/-- Modelled from the spec: ErrorContext (crate::errors, not in src/) is a
fixed-capacity stack-resident trace of recent call sites, each identified by
a discriminant; only its value semantics (copied by value into every
message) matter in this module. -/
structure ErrorContext where
  calls : List Nat
deriving DecidableEq

/-- Mirrors ErrorContext::new from crate::errors (an initially empty trace). -/
def ErrorContext.new : ErrorContext := ⟨[]⟩

/-- Modelled from the spec: PositionAndSize (crate::panes, not in src/) is an
opaque terminal-geometry value type consumed by this module. -/
structure PositionAndSize where
  columns : Nat
  rows : Nat
deriving DecidableEq

/-- Mirrors crate::server::ServerInstruction restricted to the variants this
module constructs (NewClient at line 378, Exit at line 263); the full enum
is an opaque closed set per the spec. -/
inductive ServerInstruction where
  | newClient (path : String) (ws : PositionAndSize)
  | exit
deriving DecidableEq

/-- Modelled from the spec: ClientInstruction (crate::client, not in src/) is
an opaque closed set of serializable variants; modelled by a tag. -/
structure ClientInstruction where
  tag : Nat
deriving DecidableEq

/-- Environment variable map, modelling std::env. -/
def Env : Type := List (String × String)

/-- Mirrors env::var: Ok when the variable is present. -/
def envVar : Env → String → Option String
  | [], _ => none
  | (k, v) :: rest, key => if k = key then some v else envVar rest key

/-- Action taken by the forked child in spawn_terminal (lines 129-151):
which program it spawns with which arguments, or the panic it dies with. -/
inductive ChildAction where
  | execProg (prog : String) (args : List String)
  | panicked (msg : String)
deriving DecidableEq

def noEditorMsg : String :=
  "cannot edit files if an editor is not defined: set EDITOR or VISUAL"

/-- Transcribes the ForkResult::Child match of spawn_terminal, lines 129-151:
with a file, panic when both EDITOR and VISUAL are unset, otherwise run
EDITOR (falling back to VISUAL) on the file; with no file, run SHELL. -/
def childAction (env : Env) (file_to_open : Option String) : ChildAction :=
  match file_to_open with
  | some file =>
      if (envVar env "EDITOR").isNone && (envVar env "VISUAL").isNone then
        .panicked noEditorMsg
      else
        match envVar env "EDITOR" with
        | some editor => .execProg editor [file]
        | none =>
            match envVar env "VISUAL" with
            | some visual => .execProg visual [file]
            | none => .panicked "unwrap of VISUAL failed"
  | none =>
      match envVar env "SHELL" with
      | some shell => .execProg shell []
      | none => .panicked "unwrap of SHELL failed"

/-- Observable OS events of one run of spawn_terminal, in program order. -/
inductive SpawnEvent where
  | forkPty
  | fcntlSetNonblock (fd : Nat)
  | execProg (prog : String) (args : List String)
  | panicked (msg : String)
deriving DecidableEq

/-- Outcome of the forkpty call (line 119), decided by the OS: which side of
the fork this run observes, or a fork failure. -/
inductive ForkSide where
  | parent (childPid : Nat)
  | child
deriving DecidableEq

inductive ForkPtyOutcome where
  | ok (master : Nat) (side : ForkSide)
  | err
deriving DecidableEq

/-- Events the child branch emits after the fork, from childAction. -/
def childEvents (env : Env) (file_to_open : Option String) : List SpawnEvent :=
  match childAction env file_to_open with
  | .execProg p a => [.execProg p a]
  | .panicked m => [.panicked m]

/-- Transcribes spawn_terminal, lines 117-161, as a function of the forkpty
outcome: the parent sets O_NONBLOCK on the master fd and returns the pair
(master, child pid); the child runs childAction and never returns; a fork
failure panics.  Result: the event trace in program order, and the returned
pair when the function returns. -/
def spawn_terminal (file_to_open : Option String) (env : Env)
    (fork : ForkPtyOutcome) : List SpawnEvent × Option (Nat × Nat) :=
  match fork with
  | .err => ([.panicked "failed to fork"], none)
  | .ok master (.parent childPid) =>
      ([.forkPty, .fcntlSetNonblock master], some (master, childPid))
  | .ok _ .child =>
      (.forkPty :: childEvents env file_to_open, none)

/-- Modelled from the spec: a termios attribute set; raw mode disables
canonical input processing, echo, and signal generation from control
characters, with the remaining attributes kept opaque. -/
structure Termios where
  canonical_input : Bool
  echo : Bool
  signal_chars : Bool
  other_flags : Nat
deriving DecidableEq

/-- Mirrors termios::cfmakeraw (line 29): clears the cooked-mode flags. -/
def cfmakeraw (t : Termios) : Termios :=
  { t with canonical_input := false, echo := false, signal_chars := false }

/-- Terminal attribute state of every file descriptor. -/
def TermState : Type := Nat → Termios

/-- Mirrors termios::tcgetattr. -/
def tcgetattr (st : TermState) (fd : Nat) : Termios := st fd

/-- Mirrors termios::tcsetattr with SetArg::TCSANOW. -/
def tcsetattr (st : TermState) (fd : Nat) (t : Termios) : TermState :=
  fun x => if x = fd then t else st x

/-- Transcribes into_raw_mode, lines 27-34: read the attributes of fd, make
them raw, write them back. -/
def into_raw_mode (fd : Nat) (st : TermState) : TermState :=
  tcsetattr st fd (cfmakeraw (tcgetattr st fd))

/-- Transcribes unset_raw_mode, lines 36-41: write orig_termios back to fd. -/
def unset_raw_mode (fd : Nat) (orig_termios : Termios) (st : TermState) : TermState :=
  tcsetattr st fd orig_termios

/-- Mirrors IpcSenderWithContext (lines 163-195): the held error context and
the messages this sender has written, in order, to its shared ring buffer,
each paired with the context copied at send time. -/
structure IpcSenderWithContext (T : Type) where
  err_ctx : ErrorContext
  sent : List (T × ErrorContext)
deriving DecidableEq

/-- Mirrors IpcSenderWithContext::new (lines 173-179). -/
def IpcSenderWithContext.new (T : Type) : IpcSenderWithContext T :=
  { err_ctx := ErrorContext.new, sent := [] }

/-- Transcribes IpcSenderWithContext::update (lines 186-188). -/
def IpcSenderWithContext.update {T : Type} (s : IpcSenderWithContext T)
    (ctx : ErrorContext) : IpcSenderWithContext T :=
  { s with err_ctx := ctx }

/-- Transcribes IpcSenderWithContext::send (lines 192-194): the pair of the
payload and the current err_ctx is serialized into the buffer. -/
def IpcSenderWithContext.send {T : Type} (s : IpcSenderWithContext T)
    (msg : T) : IpcSenderWithContext T :=
  { s with sent := s.sent ++ [(msg, s.err_ctx)] }

/-- One client-visible operation on a sender, for reasoning about arbitrary
interleavings of update and send. -/
inductive SenderOp (T : Type) where
  | update (ctx : ErrorContext)
  | send (msg : T)

/-- Runs a sequence of update and send calls on a sender. -/
def runSenderOps {T : Type} (s : IpcSenderWithContext T) :
    List (SenderOp T) → IpcSenderWithContext T
  | [] => s
  | .update c :: rest => runSenderOps (s.update c) rest
  | .send m :: rest => runSenderOps (s.send m) rest

/-- Specification-side recorder (from the words of the spec): the messages a
sequence of operations appends, each payload paired with the context value
active at the moment of its send call. -/
def sentWith {T : Type} (ctx : ErrorContext) : List (SenderOp T) → List (T × ErrorContext)
  | [] => []
  | .update c :: rest => sentWith c rest
  | .send m :: rest => (m, ctx) :: sentWith ctx rest

/-- A shared-memory ring buffer endpoint (ipmpsc::SharedRingBuffer), with its
identifying path, fixed capacity in bytes, and pending messages. -/
structure RingBuffer (M : Type) where
  path : String
  capacity : Nat
  messages : List M
deriving DecidableEq

/-- Mirrors IPC_BUFFER_SIZE (line 25). -/
def IPC_BUFFER_SIZE : Nat := 8388608

/-- Mirrors SharedRingBuffer::create_temp: the OS picks a fresh temporary
path (passed here as the oracle tempPath); a new empty buffer of the given
capacity is created at it and its path returned. -/
def SharedRingBuffer.create_temp (M : Type) (tempPath : String)
    (capacity : Nat) : String × RingBuffer M :=
  (tempPath, { path := tempPath, capacity := capacity, messages := [] })

/-- Modelled from the spec: ZELLIJ_IPC_PIPE (crate::utils::consts, not in
src/) is the fixed, process-wide path of the well-known server inbound
endpoint; its concrete value is opaque here. -/
def ZELLIJ_IPC_PIPE : String := "zellij-ipc-pipe"

/-- Mirrors ServerOsInputOutput (lines 197-203).  The receiver is modelled by
its pending message list; the lock wrappers (Arc, Mutex) have no pure
content. -/
structure ServerOsInputOutput where
  orig_termios : Termios
  server_sender : IpcSenderWithContext ServerInstruction
  server_receiver : List (ServerInstruction × ErrorContext)
  client_sender : Option (IpcSenderWithContext ClientInstruction)

/-- States of the spawned child process as observed by its parent, with
transitions driven by signals and wait calls. -/
inductive ProcState where
  | running
  | zombie
  | reaped
deriving DecidableEq

/-- Mirrors nix Signal restricted to the one this module sends. -/
inductive PosixSignal where
  | SIGINT
deriving DecidableEq

/-- Delivery of SIGINT under the default disposition terminates a running
process, making it a zombie until reaped; a dead process is unchanged. -/
def deliverSigint : ProcState → ProcState
  | .running => .zombie
  | p => p

/-- Mirrors waitpid / Child::wait: reaps a terminated child. -/
def waitReap : ProcState → ProcState
  | .zombie => .reaped
  | p => p

/-- System calls issued by ServerOsInputOutput::kill, in program order. -/
inductive SysCall where
  | killSig (pid : Nat) (sig : PosixSignal)
  | waitpidCall (pid : Nat)
deriving DecidableEq

/-- Transcribes ServerOsApi::kill for ServerOsInputOutput, lines 257-261:
send SIGINT to pid, then waitpid on pid; returns the trace of system calls
in order and the resulting state of the process. -/
def ServerOsInputOutput.kill (pid : Nat) (p : ProcState) :
    List SysCall × ProcState :=
  let p1 := deliverSigint p
  let p2 := waitReap p1
  ([SysCall.killSig pid .SIGINT, SysCall.waitpidCall pid], p2)

/-- Mirrors Child::try_wait: a terminated child is reaped and its status
reported (a previously reaped child reports its stored status); a running
child reports None. -/
def tryWait : ProcState → Option Unit × ProcState
  | .running => (none, .running)
  | .zombie => (some (), .reaped)
  | .reaped => (some (), .reaped)

/-- Observations of one iteration of the exit-watch loop: whether the child
terminated on its own before the try_wait of this iteration, and whether a
SIGINT is pending when the signal set is drained. -/
structure IterObs where
  child_exits : Bool
  sigint_pending : Bool
deriving DecidableEq

/-- Loop-exit causes of handle_command_exit, one per break site. -/
inductive ExitCause where
  | naturalExit
  | interrupted
deriving DecidableEq

/-- Steps the exit-watch loop takes, in program order. -/
inductive ExitWatchEvent where
  | tryWaitEv
  | sleepEv
  | killChildEv
  | waitChildEv
deriving DecidableEq

/-- Transcribes handle_command_exit, lines 75-101, one loop iteration per
schedule entry: try_wait, break on Some; on None sleep 100ms, then drain
pending signals and on SIGINT kill the child, wait on it, and break.  The
result is the loop outcome (none while the schedule leaves it running), the
final child state, and the event trace. -/
def handle_command_exit :
    ProcState → List IterObs → Option ExitCause × ProcState × List ExitWatchEvent
  | c, [] => (none, c, [])
  | c, obs :: rest =>
      let c0 := if obs.child_exits then
          (match c with | .running => .zombie | p => p) else c
      match tryWait c0 with
      | (some _, c1) => (some .naturalExit, c1, [.tryWaitEv])
      | (none, c1) =>
          if obs.sigint_pending then
            let c2 := deliverSigint c1
            let c3 := waitReap c2
            (some .interrupted, c3, [.tryWaitEv, .sleepEv, .killChildEv, .waitChildEv])
          else
            let r := handle_command_exit c1 rest
            (r.1, r.2.1, .tryWaitEv :: .sleepEv :: r.2.2)

/-- Outcome of a server-side send_to_client call: the unwrap of the unset
client_sender option panics; otherwise the updated state. -/
inductive SendOutcome where
  | panicUnsetSender
  | ok (s : ServerOsInputOutput)

/-- Transcribes ServerOsApi::send_to_client, lines 268-270: unwrap the
client_sender option (panicking when it is None) and send msg on it. -/
def ServerOsInputOutput.send_to_client (s : ServerOsInputOutput)
    (msg : ClientInstruction) : SendOutcome :=
  match s.client_sender with
  | none => .panicUnsetSender
  | some cs => .ok { s with client_sender := some (cs.send msg) }

/-- Transcribes ServerOsApi::add_client_sender, lines 271-274: open the
buffer at buffer_path and install a fresh sender to it. -/
def ServerOsInputOutput.add_client_sender (s : ServerOsInputOutput)
    (_buffer_path : String) : ServerOsInputOutput :=
  { s with client_sender := some (IpcSenderWithContext.new ClientInstruction) }

/-- Transcribes ServerOsApi::update_senders, lines 275-280: update the server
sender context, and the client sender context when one is registered. -/
def ServerOsInputOutput.update_senders (s : ServerOsInputOutput)
    (new_ctx : ErrorContext) : ServerOsInputOutput :=
  { s with
    server_sender := s.server_sender.update new_ctx,
    client_sender := match s.client_sender with
      | some cs => some (cs.update new_ctx)
      | none => none }

/-- Mirrors ClientOsInputOutput (lines 303-309); the private receiver is the
ring buffer it reads, when one has been installed. -/
structure ClientOsInputOutput where
  orig_termios : Termios
  server_sender : IpcSenderWithContext ServerInstruction
  client_receiver : Option (RingBuffer (ClientInstruction × ErrorContext))

/-- Transcribes ClientOsApi::set_raw_mode, lines 343-345. -/
def ClientOsInputOutput.set_raw_mode (_ : ClientOsInputOutput) (fd : Nat)
    (st : TermState) : TermState :=
  into_raw_mode fd st

/-- Alias for the free unset_raw_mode of lines 36-41, needed because the
trait method below carries the same name. -/
def unsetRawModeFree : Nat → Termios → TermState → TermState := unset_raw_mode

/-- Transcribes ClientOsApi::unset_raw_mode, lines 346-349: restore the
orig_termios snapshot held by the client. -/
def ClientOsInputOutput.unset_raw_mode (c : ClientOsInputOutput) (fd : Nat)
    (st : TermState) : TermState :=
  unsetRawModeFree fd c.orig_termios st

/-- Transcribes ClientOsApi::send_to_server, lines 366-368. -/
def ClientOsInputOutput.send_to_server (c : ClientOsInputOutput)
    (msg : ServerInstruction) : ClientOsInputOutput :=
  { c with server_sender := c.server_sender.send msg }

/-- Transcribes ClientOsApi::connect_to_server, lines 372-382: create a fresh
temporary ring buffer of IPC_BUFFER_SIZE bytes (tempPath is the fresh path
the OS picks), install its receiving half as the client receiver, and send
NewClient(path, geometry) to the server. -/
def ClientOsInputOutput.connect_to_server (c : ClientOsInputOutput)
    (full_screen_ws : PositionAndSize) (tempPath : String) : ClientOsInputOutput :=
  let pb := SharedRingBuffer.create_temp (ClientInstruction × ErrorContext)
      tempPath IPC_BUFFER_SIZE
  let c1 := { c with client_receiver := some pb.2 }
  c1.send_to_server (.newClient pb.1 full_screen_ws)

/-- Outcome of a client_recv call: the unwrap of the unset client_receiver
option panics; an installed but empty buffer blocks; otherwise the first
pending message is returned. -/
inductive RecvOutcome where
  | panicUnsetReceiver
  | blocked
  | received (m : ClientInstruction × ErrorContext)
deriving DecidableEq

/-- Transcribes ClientOsApi::client_recv, lines 383-391: unwrap the
client_receiver option (panicking when it is None), then block on recv. -/
def ClientOsInputOutput.client_recv (c : ClientOsInputOutput) : RecvOutcome :=
  match c.client_receiver with
  | none => .panicUnsetReceiver
  | some buf =>
      match buf.messages with
      | [] => .blocked
      | m :: _ => .received m

/-- Helper: the messages a sender has written after any sequence of update
and send calls are the old ones followed by each sent payload paired with
the context value current at its send. -/
theorem runSenderOps_sent {T : Type} (s : IpcSenderWithContext T)
    (ops : List (SenderOp T)) :
    (runSenderOps s ops).sent = s.sent ++ sentWith s.err_ctx ops := by
  induction ops generalizing s with
  | nil => simp [runSenderOps, sentWith]
  | cons op rest ih =>
    cases op with
    | update c =>
        simp [runSenderOps, sentWith, IpcSenderWithContext.update, ih]
    | send m =>
        simp [runSenderOps, sentWith, IpcSenderWithContext.send, ih]

/-- Claim C1 counterexample: with a file to open, no EDITOR and no VISUAL,
the run of spawn_terminal that fails is the forked child, and its event
trace already contains the forkPty event before the panic: the PTY is
allocated and the fork performed before the failure, refuting that the
failure happens before any child process is created or PTY allocated. -/
theorem C1_counterexample :
    envVar ([] : Env) "EDITOR" = none ∧ envVar ([] : Env) "VISUAL" = none ∧
    (spawn_terminal (some "file.txt") ([] : Env) (.ok 3 .child)).1
        = [SpawnEvent.forkPty, SpawnEvent.panicked noEditorMsg] ∧
    (spawn_terminal (some "file.txt") ([] : Env) (.ok 3 .child)).1.head?
        = some SpawnEvent.forkPty :=
  ⟨rfl, rfl, rfl, rfl⟩

/-- Claim C1 (amended): when a file to open is requested and neither EDITOR
nor VISUAL is set, the spawn fails before any editor process is created:
the forked child panics without ever emitting an exec event and
spawn_terminal returns no descriptor pair on the child side; the panic
however happens after the forkpty call, so the PTY and the forked child
already exist at the time of the failure. -/
theorem C1_fails_before_editor_spawn (env : Env) (file : String) (m : Nat)
    (hE : envVar env "EDITOR" = none) (hV : envVar env "VISUAL" = none) :
    (spawn_terminal (some file) env (.ok m .child)).1
        = [SpawnEvent.forkPty, SpawnEvent.panicked noEditorMsg] ∧
    (∀ p a, SpawnEvent.execProg p a ∉ (spawn_terminal (some file) env (.ok m .child)).1) ∧
    (spawn_terminal (some file) env (.ok m .child)).2 = none := by
  refine ⟨?_, ?_, rfl⟩ <;>
    simp [spawn_terminal, childEvents, childAction, hE, hV]

/-- Claim C1 witness: the amended statement at a concrete input. -/
theorem C1_fails_before_editor_spawn_witness :
    (spawn_terminal (some "f") ([] : Env) (.ok 3 .child)).1
        = [SpawnEvent.forkPty, SpawnEvent.panicked noEditorMsg] ∧
    (∀ p a, SpawnEvent.execProg p a ∉ (spawn_terminal (some "f") ([] : Env) (.ok 3 .child)).1) ∧
    (spawn_terminal (some "f") ([] : Env) (.ok 3 .child)).2 = none :=
  C1_fails_before_editor_spawn [] "f" 3 rfl rfl

/-- Claim C2: over any sequence of update and send calls on one
IpcSenderWithContext, each send appends exactly the pair of its payload and
the context held at the moment of that send (the context is copied by value
into the message, never dropped), already-sent messages are never mutated
by later operations, and an update changes only the context attached to
subsequent sends. -/
theorem C2_context_copied_at_send {T : Type} (s : IpcSenderWithContext T)
    (ops : List (SenderOp T)) :
    ((runSenderOps s ops).sent = s.sent ++ sentWith s.err_ctx ops) ∧
    (∀ c, (s.update c).sent = s.sent ∧
        (runSenderOps (s.update c) ops).sent = s.sent ++ sentWith c ops) := by
  refine ⟨runSenderOps_sent s ops, fun c => ⟨rfl, ?_⟩⟩
  simpa [IpcSenderWithContext.update] using runSenderOps_sent (s.update c) ops

/-- Claim C3: with a file supplied the child runs the program named by
EDITOR, falling back to VISUAL only when EDITOR is unset, with the file as
its single argument, and panics when neither is set; with no file it runs
the program named by SHELL. -/
theorem C3_editor_selection (env : Env) (file : String) :
    (∀ e, envVar env "EDITOR" = some e →
        childAction env (some file) = .execProg e [file]) ∧
    (envVar env "EDITOR" = none → ∀ v, envVar env "VISUAL" = some v →
        childAction env (some file) = .execProg v [file]) ∧
    (envVar env "EDITOR" = none → envVar env "VISUAL" = none →
        childAction env (some file) = .panicked noEditorMsg) ∧
    (∀ sh, envVar env "SHELL" = some sh →
        childAction env none = .execProg sh []) := by
  refine ⟨fun e hE => ?_, fun hE v hV => ?_, fun hE hV => ?_, fun sh hS => ?_⟩
  · simp [childAction, hE]
  · simp [childAction, hE, hV]
  · simp [childAction, hE, hV]
  · simp [childAction, hS]

/-- Claim C3 witness: the four selection branches at concrete environments. -/
theorem C3_editor_selection_witness :
    childAction [("EDITOR", "vim"), ("VISUAL", "vi")] (some "f")
        = .execProg "vim" ["f"] ∧
    childAction [("VISUAL", "vi")] (some "f") = .execProg "vi" ["f"] ∧
    childAction ([] : Env) (some "f") = .panicked noEditorMsg ∧
    childAction [("SHELL", "bash")] none = .execProg "bash" [] :=
  ⟨(C3_editor_selection [("EDITOR", "vim"), ("VISUAL", "vi")] "f").1 "vim" rfl,
   (C3_editor_selection [("VISUAL", "vi")] "f").2.1 rfl "vi" rfl,
   (C3_editor_selection ([] : Env) "f").2.2.1 rfl rfl,
   (C3_editor_selection [("SHELL", "bash")] "f").2.2.2 "bash" rfl⟩

/-- Claim C4: on the parent side of a successful forkpty, spawn_terminal
returns the pair of the primary descriptor and the child pid, and its trace
is exactly the forkpty followed at once by the fcntl that sets O_NONBLOCK
on the primary descriptor, with nothing after it before the return. -/
theorem C4_parent_nonblocking_pair (file_to_open : Option String) (env : Env)
    (master childPid : Nat) :
    (spawn_terminal file_to_open env (.ok master (.parent childPid))).2
        = some (master, childPid) ∧
    (spawn_terminal file_to_open env (.ok master (.parent childPid))).1
        = [SpawnEvent.forkPty, SpawnEvent.fcntlSetNonblock master] :=
  ⟨rfl, rfl⟩

/-- Claim C5: connect_to_server creates a fresh temporary ring buffer of the
fixed 8 MiB capacity (8388608 bytes), installs its receiving half as the
private client receiver, and appends to the server inbound endpoint exactly
one new-client announcement carrying the fresh path and the supplied
terminal geometry. -/
theorem C5_connect_to_server_handshake (c : ClientOsInputOutput)
    (ws : PositionAndSize) (tempPath : String) :
    IPC_BUFFER_SIZE = 8388608 ∧
    (c.connect_to_server ws tempPath).client_receiver
        = some { path := tempPath, capacity := 8388608, messages := [] } ∧
    (c.connect_to_server ws tempPath).server_sender.sent
        = c.server_sender.sent
          ++ [(ServerInstruction.newClient tempPath ws, c.server_sender.err_ctx)] := by
  refine ⟨rfl, ?_, ?_⟩ <;>
    simp [ClientOsInputOutput.connect_to_server, ClientOsInputOutput.send_to_server,
      SharedRingBuffer.create_temp, IpcSenderWithContext.send, IPC_BUFFER_SIZE]

/-- Claim C6: applying set_raw_mode to a descriptor and then unset_raw_mode
restores on that descriptor exactly the attribute set captured at startup
from descriptor 0 and held by the client as orig_termios. -/
theorem C6_raw_mode_round_trip (st0 st : TermState) (fd : Nat)
    (c : ClientOsInputOutput) (h : c.orig_termios = tcgetattr st0 0) :
    tcgetattr (c.unset_raw_mode fd (c.set_raw_mode fd st)) fd = tcgetattr st0 0 := by
  simp [ClientOsInputOutput.unset_raw_mode, ClientOsInputOutput.set_raw_mode,
    unsetRawModeFree, unset_raw_mode, into_raw_mode, tcsetattr, tcgetattr, h]

def sampleTermios : Termios :=
  { canonical_input := true, echo := true, signal_chars := true, other_flags := 7 }

def sampleTermState : TermState := fun _ => sampleTermios

def sampleClient6 : ClientOsInputOutput :=
  { orig_termios := tcgetattr sampleTermState 0,
    server_sender := IpcSenderWithContext.new ServerInstruction,
    client_receiver := none }

/-- Claim C6 witness: the round trip at a concrete state and descriptor. -/
theorem C6_raw_mode_round_trip_witness :
    tcgetattr (sampleClient6.unset_raw_mode 1 (sampleClient6.set_raw_mode 1 sampleTermState)) 1
      = tcgetattr sampleTermState 0 :=
  C6_raw_mode_round_trip sampleTermState sampleTermState 1 sampleClient6 rfl

/-- Claim C7: the server kill operation on a running process issues exactly
the SIGINT kill followed by the waitpid, in that order, before returning,
and the process is reaped when it returns. -/
theorem C7_kill_sigint_then_reap (pid : Nat) (p : ProcState)
    (h : p = ProcState.running) :
    (ServerOsInputOutput.kill pid p).1
        = [SysCall.killSig pid PosixSignal.SIGINT, SysCall.waitpidCall pid] ∧
    (ServerOsInputOutput.kill pid p).2 = ProcState.reaped := by
  subst h; exact ⟨rfl, rfl⟩

/-- Claim C7 witness: the kill operation at a concrete pid. -/
theorem C7_kill_sigint_then_reap_witness :
    (ServerOsInputOutput.kill 5 ProcState.running).1
        = [SysCall.killSig 5 PosixSignal.SIGINT, SysCall.waitpidCall 5] ∧
    (ServerOsInputOutput.kill 5 ProcState.running).2 = ProcState.reaped :=
  C7_kill_sigint_then_reap 5 ProcState.running rfl

/-- Claim C8: update_senders replaces the error context of the server sender
with new_ctx, replaces the context of the client sender exactly when one is
registered (leaving it absent otherwise), and changes nothing else: sent
messages, the receiver, and the termios snapshot are untouched. -/
theorem C8_update_senders_contexts (s : ServerOsInputOutput)
    (new_ctx : ErrorContext) :
    ((s.update_senders new_ctx).server_sender.err_ctx = new_ctx) ∧
    ((s.update_senders new_ctx).server_sender.sent = s.server_sender.sent) ∧
    (∀ cs, s.client_sender = some cs →
        (s.update_senders new_ctx).client_sender = some (cs.update new_ctx)) ∧
    (s.client_sender = none → (s.update_senders new_ctx).client_sender = none) ∧
    ((s.update_senders new_ctx).orig_termios = s.orig_termios) ∧
    ((s.update_senders new_ctx).server_receiver = s.server_receiver) := by
  refine ⟨rfl, rfl, fun cs hcs => ?_, fun hn => ?_, rfl, rfl⟩
  · simp [ServerOsInputOutput.update_senders, hcs]
  · simp [ServerOsInputOutput.update_senders, hn]

def sampleTermios8 : Termios :=
  { canonical_input := true, echo := false, signal_chars := true, other_flags := 1 }

def sampleServer8a : ServerOsInputOutput :=
  { orig_termios := sampleTermios8,
    server_sender := IpcSenderWithContext.new ServerInstruction,
    server_receiver := [],
    client_sender := none }

def sampleServer8b : ServerOsInputOutput :=
  { sampleServer8a with
    client_sender := some (IpcSenderWithContext.new ClientInstruction) }

def sampleCtx8 : ErrorContext := ⟨[1, 2]⟩

/-- Claim C8 witness: both the registered and the unregistered client-sender
cases at concrete states. -/
theorem C8_update_senders_contexts_witness :
    (sampleServer8a.update_senders sampleCtx8).server_sender.err_ctx = sampleCtx8 ∧
    (sampleServer8a.update_senders sampleCtx8).client_sender = none ∧
    (sampleServer8b.update_senders sampleCtx8).client_sender
        = some ((IpcSenderWithContext.new ClientInstruction).update sampleCtx8) :=
  ⟨(C8_update_senders_contexts sampleServer8a sampleCtx8).1,
   (C8_update_senders_contexts sampleServer8a sampleCtx8).2.2.2.1 rfl,
   (C8_update_senders_contexts sampleServer8b sampleCtx8).2.2.1
     (IpcSenderWithContext.new ClientInstruction) rfl⟩

/-- Claim C9: whenever the exit-watch loop exits, the child is reaped, and
the exit cause is either the natural-exit branch or the interrupt branch,
the latter having explicitly killed and waited for the child (both events
are in the loop trace) before exiting. -/
theorem C9_exit_watch_reaps (c : ProcState) (sched : List IterObs)
    (cause : ExitCause)
    (h : (handle_command_exit c sched).1 = some cause) :
    (handle_command_exit c sched).2.1 = ProcState.reaped ∧
    (cause = ExitCause.naturalExit ∨
      (cause = ExitCause.interrupted ∧
        ExitWatchEvent.killChildEv ∈ (handle_command_exit c sched).2.2 ∧
        ExitWatchEvent.waitChildEv ∈ (handle_command_exit c sched).2.2)) := by
  induction sched generalizing c cause with
  | nil => simp [handle_command_exit] at h
  | cons obs rest ih =>
      obtain ⟨ce, sp⟩ := obs
      cases c with
      | zombie => cases ce <;> simp_all [handle_command_exit, tryWait]
      | reaped => cases ce <;> simp_all [handle_command_exit, tryWait]
      | running =>
          cases ce with
          | true => simp_all [handle_command_exit, tryWait]
          | false =>
              cases sp with
              | true =>
                  simp_all [handle_command_exit, tryWait, deliverSigint, waitReap]
              | false =>
                  have h2 : (handle_command_exit ProcState.running rest).1 = some cause := by
                    simpa [handle_command_exit, tryWait] using h
                  obtain ⟨hfin, hdisj⟩ := ih ProcState.running cause h2
                  refine ⟨by simpa [handle_command_exit, tryWait] using hfin, ?_⟩
                  rcases hdisj with hnat | ⟨hint, hk, hw⟩
                  · exact Or.inl hnat
                  · refine Or.inr ⟨hint, ?_, ?_⟩
                    · simpa [handle_command_exit, tryWait] using hk
                    · simpa [handle_command_exit, tryWait] using hw

/-- Claim C9 witness: a schedule where the child exits naturally on the
second iteration, applied through the loop theorem. -/
theorem C9_exit_watch_reaps_witness :
    (handle_command_exit ProcState.running
        [⟨false, false⟩, ⟨true, false⟩]).2.1 = ProcState.reaped ∧
    (ExitCause.naturalExit = ExitCause.naturalExit ∨
      (ExitCause.naturalExit = ExitCause.interrupted ∧
        ExitWatchEvent.killChildEv ∈ (handle_command_exit ProcState.running
          [⟨false, false⟩, ⟨true, false⟩]).2.2 ∧
        ExitWatchEvent.waitChildEv ∈ (handle_command_exit ProcState.running
          [⟨false, false⟩, ⟨true, false⟩]).2.2)) :=
  C9_exit_watch_reaps ProcState.running [⟨false, false⟩, ⟨true, false⟩]
    ExitCause.naturalExit (by simp [handle_command_exit, tryWait])

/-- Claim C10: send_to_client panics on the unwrap of the unset client
sender and client_recv panics on the unwrap of the unset client receiver;
once add_client_sender and connect_to_server have run, the respective
unwrap branches are unreachable. -/
theorem C10_unwrap_partiality
    (s : ServerOsInputOutput) (c : ClientOsInputOutput) (msg : ClientInstruction)
    (path tempPath : String) (ws : PositionAndSize)
    (hs : s.client_sender = none) (hc : c.client_receiver = none) :
    s.send_to_client msg = SendOutcome.panicUnsetSender ∧
    c.client_recv = RecvOutcome.panicUnsetReceiver ∧
    (∀ m2, (s.add_client_sender path).send_to_client m2 ≠ SendOutcome.panicUnsetSender) ∧
    (c.connect_to_server ws tempPath).client_recv ≠ RecvOutcome.panicUnsetReceiver := by
  refine ⟨?_, ?_, fun m2 => ?_, ?_⟩
  · simp [ServerOsInputOutput.send_to_client, hs]
  · simp [ClientOsInputOutput.client_recv, hc]
  · simp [ServerOsInputOutput.send_to_client, ServerOsInputOutput.add_client_sender]
  · simp [ClientOsInputOutput.client_recv, ClientOsInputOutput.connect_to_server,
      ClientOsInputOutput.send_to_server, SharedRingBuffer.create_temp]

def sampleServer10 : ServerOsInputOutput :=
  { orig_termios := sampleTermios8,
    server_sender := IpcSenderWithContext.new ServerInstruction,
    server_receiver := [],
    client_sender := none }

def sampleClient10 : ClientOsInputOutput :=
  { orig_termios := sampleTermios8,
    server_sender := IpcSenderWithContext.new ServerInstruction,
    client_receiver := none }

/-- Claim C10 witness: the partiality statement at concrete unregistered
server and client states. -/
theorem C10_unwrap_partiality_witness :
    sampleServer10.send_to_client ⟨0⟩ = SendOutcome.panicUnsetSender ∧
    sampleClient10.client_recv = RecvOutcome.panicUnsetReceiver ∧
    (∀ m2, (sampleServer10.add_client_sender "p").send_to_client m2
        ≠ SendOutcome.panicUnsetSender) ∧
    (sampleClient10.connect_to_server ⟨80, 24⟩ "t").client_recv
        ≠ RecvOutcome.panicUnsetReceiver :=
  C10_unwrap_partiality sampleServer10 sampleClient10 ⟨0⟩ "p" "t" ⟨80, 24⟩ rfl rfl
